import Mathlib

/-!
Shallow embedding of `saleor/wsgi/__init__.py`: the WSGI bootstrap glue of the
Saleor project.  The file defines three middleware closures —
`wsgi_input_middleware`, `cors_middleware`, `warmup_application` — wired around
the Django application.  We model:

* a WSGI environ as a partial map from string keys to Python values (`Env`);
* Python values that can occur in an environ (`PyVal`): strings, ints, bools,
  byte streams (objects with a `.read` attribute such as the raw input stream
  or `BytesIO`), and opaque objects without a `.read` attribute;
* a WSGI application denotationally (`App`): a function from the environ to
  either an exception (`Except.error`) or a record of the `start_response`
  invocations the application performs plus the body chunks it yields
  (`AppResult`).  Middleware that wraps `start_response` is modelled as a
  transformation of the recorded invocations.
-/

/-- An in-memory byte stream with a current position, modelling a Python
file-like object with a `read` method (the request input stream / `BytesIO`).
Bytes are naturals below 256; positions index into `data`. -/
structure ByteStream where
  data : List Nat
  pos : Nat
deriving DecidableEq, Repr

/-- Python `stream.read()` with no argument: returns everything from the
current position to the end and leaves the position at the end. -/
def ByteStream.readAll (s : ByteStream) : List Nat × ByteStream :=
  (s.data.drop s.pos, { s with pos := s.data.length })

/-- Python `stream.seek(p)`: repositions the stream. -/
def ByteStream.seek (s : ByteStream) (p : Nat) : ByteStream :=
  { s with pos := p }

/-- `BytesIO(body)`: a fresh in-memory stream over `body`, positioned at 0. -/
def bytesIOOf (body : List Nat) : ByteStream :=
  ⟨body, 0⟩

/-- A Python value as it can appear in a WSGI environ or a response header
pair: a string, an int, a bool, a file-like object (has a `.read` attribute),
or an opaque object without a `.read` attribute (identified by a tag). -/
inductive PyVal where
  | str (s : String)
  | int (n : Int)
  | bool (b : Bool)
  | stream (b : ByteStream)
  | noRead (tag : String)
deriving DecidableEq, Repr

/-- Python `hasattr(v, "read")` for the values we model: only file-like
stream objects expose `read`. -/
def PyVal.hasRead : PyVal → Bool
  | .stream _ => true
  | _ => false

/-- Python truthiness (`if v:`) for the values we model: empty string and
zero are falsy; streams and generic objects are truthy. -/
def pyTruthy : PyVal → Bool
  | .str s => s != ""
  | .int n => n != 0
  | .bool b => b
  | .stream _ => true
  | .noRead _ => true

/-- Truthiness of `environ.get(k)`: `None` (absent key) is falsy. -/
def originTruthy : Option PyVal → Bool
  | some v => pyTruthy v
  | none => false

/-- A WSGI environ: a partial map from string keys to Python values. -/
abbrev Env : Type := String → Option PyVal

/-- Store `v` under key `k` (Python `environ[k] = v`). -/
def Env.set (e : Env) (k : String) (v : PyVal) : Env :=
  fun k' => if k' = k then some v else e k'

/-- Characters Python's `int(str)` strips from both ends (ASCII whitespace). -/
def isPySpace (c : Char) : Bool :=
  c = ' ' || c = '\t' || c = '\n' || c = '\r' || c = '\x0b' || c = '\x0c'

/-- Strip leading and trailing whitespace from a character list. -/
def stripSpaces (cs : List Char) : List Char :=
  ((cs.dropWhile isPySpace).reverse.dropWhile isPySpace).reverse

/-- Tail of a valid Python integer-literal digit run: digits, where an
underscore may appear only between two digits (CPython's grammar for
`int("1_000")`). -/
def digitsTail : List Char → Bool
  | [] => true
  | '_' :: c :: rest => c.isDigit && digitsTail rest
  | c :: rest => c.isDigit && digitsTail rest

/-- A valid digit run: nonempty, starts with a digit, underscores only
between digits. -/
def digitsOk : List Char → Bool
  | [] => false
  | c :: rest => c.isDigit && digitsTail rest

/-- Numeric value of a digit run, ignoring underscores. -/
def digitsVal (cs : List Char) : Nat :=
  (cs.filter (fun c => c ≠ '_')).foldl (fun a c => 10 * a + (c.toNat - 48)) 0

/-- Python `int(s)` on a string: strip surrounding whitespace, then an
optional sign followed by a digit run (underscores allowed between digits).
`none` models `ValueError`. -/
def pyIntOfString (s : String) : Option Int :=
  match stripSpaces s.toList with
  | '+' :: rest => if digitsOk rest then some (digitsVal rest) else none
  | '-' :: rest => if digitsOk rest then some (-(digitsVal rest : Int)) else none
  | cs => if digitsOk cs then some (digitsVal cs) else none

/-- Python `int(v)` on an environ value: identity on ints, `int(True) = 1`,
string parsing per `pyIntOfString`; `none` models the `ValueError` /
`TypeError` raised on streams and generic objects. -/
def pyInt : PyVal → Option Int
  | .str s => pyIntOfString s
  | .int n => some n
  | .bool b => some (if b then 1 else 0)
  | .stream _ => none
  | .noRead _ => none

/-- The record of one `start_response(status, headers)` invocation: the status
line and the header list handed over.  Header values are Python values (the
echoed origin is whatever object sat in the environ). -/
abbrev SrCall : Type := String × List (String × PyVal)

/-- Denotation of running a WSGI application on an environ: the sequence of
`start_response` invocations it performs (in order) and the body chunks it
yields. -/
structure AppResult where
  srCalls : List SrCall
  body : List (List Nat)
deriving DecidableEq, Repr

/-- A WSGI application: from an environ to either a raised exception
(`Except.error` with the message) or its `start_response` trace and body. -/
abbrev App : Type := Env → Except String AppResult

/-- Decidable equality of application outcomes, for concrete evaluations. -/
instance exceptDecEq {ε α : Type} [DecidableEq ε] [DecidableEq α] : DecidableEq (Except ε α)
  | Except.ok a, Except.ok b =>
      if h : a = b then isTrue (congrArg Except.ok h)
      else isFalse (fun hc => h (Except.ok.inj hc))
  | Except.error a, Except.error b =>
      if h : a = b then isTrue (congrArg Except.error h)
      else isFalse (fun hc => h (Except.error.inj hc))
  | Except.ok _, Except.error _ => isFalse (fun hc => Except.noConfusion hc)
  | Except.error _, Except.ok _ => isFalse (fun hc => Except.noConfusion hc)

/-- Environ transformation performed by the body of `wsgi_input_middleware`
before it delegates: if `'wsgi.input'` is present and has a `read` attribute,
read it fully and replace it with `BytesIO(body)`; if `'CONTENT_LENGTH'` is
present, replace it with `int(...)`, substituting `0` when `int` raises
`ValueError` or `TypeError`. -/
def normalizeEnviron (environ : Env) : Env :=
  let env1 : Env :=
    match environ "wsgi.input" with
    | some (PyVal.stream b) =>
        Env.set environ "wsgi.input" (PyVal.stream (bytesIOOf (b.readAll).1))
    | _ => environ
  match env1 "CONTENT_LENGTH" with
  | some v => Env.set env1 "CONTENT_LENGTH" (PyVal.int ((pyInt v).getD 0))
  | none => env1

/-- `wsgi_input_middleware(application)`: normalize the environ, then call
the wrapped application on it with the untouched `start_response`. -/
def wsgi_input_middleware (application : App) : App :=
  fun environ => application (normalizeEnviron environ)

/-- The six CORS header pairs appended by `cors_response`, in source order,
with the request origin echoed into the first pair. -/
def corsHeaders (origin : PyVal) : List (String × PyVal) :=
  [("Access-Control-Allow-Origin", origin),
   ("Access-Control-Allow-Credentials", PyVal.str "true"),
   ("Access-Control-Allow-Methods", PyVal.str "POST, GET, OPTIONS"),
   ("Access-Control-Allow-Headers", PyVal.str "Content-Type, Authorization, authorization-bearer"),
   ("Access-Control-Max-Age", PyVal.str "3600"),
   ("Access-Control-Expose-Headers", PyVal.str "Content-Type, Authorization")]

/-- `cors_middleware(application)`: `origin = environ.get('HTTP_ORIGIN')`;
the wrapped `cors_response` extends any header list with the six CORS pairs
when `origin` is truthy before forwarding to the real `start_response`.
`OPTIONS` requests short-circuit: with a truthy origin, one
`start_response('200 OK', cors headers)` call and body `[b'']`; otherwise no
`start_response` call at all and body `[b'']`.  Other methods delegate to the
wrapped application with `cors_response` substituted for `start_response`. -/
def cors_middleware (application : App) : App :=
  fun environ =>
    let origin := environ "HTTP_ORIGIN"
    let addCors : List (String × PyVal) → List (String × PyVal) :=
      fun response_headers =>
        match origin with
        | some o => if pyTruthy o then response_headers ++ corsHeaders o else response_headers
        | none => response_headers
    if environ "REQUEST_METHOD" = some (PyVal.str "OPTIONS") then
      if originTruthy origin then
        Except.ok { srCalls := [("200 OK", addCors [])], body := [[]] }
      else
        Except.ok { srCalls := [], body := [[]] }
    else
      match application environ with
      | Except.ok r =>
          Except.ok { srCalls := r.srCalls.map (fun c => (c.1, addCors c.2)), body := r.body }
      | Except.error e => Except.error e

/-- The fabricated environ built by `warmup_application`: a POST to
`/graphql/` with content type `application/json`, body `b"{}"` (bytes 123,
125) and `CONTENT_LENGTH` `"2"`.  `SERVER_NAME` holds the lazy allowed-host
object, modelled opaquely. -/
def warmupEnviron : Env := fun k =>
  if k = "wsgi.errors" then some (PyVal.stream (bytesIOOf []))
  else if k = "wsgi.url_scheme" then some (PyVal.str "http")
  else if k = "wsgi.multithread" then some (PyVal.bool false)
  else if k = "wsgi.multiprocess" then some (PyVal.bool true)
  else if k = "wsgi.run_once" then some (PyVal.bool false)
  else if k = "REQUEST_METHOD" then some (PyVal.str "POST")
  else if k = "SERVER_NAME" then some (PyVal.noRead "SimpleLazyObject(get_allowed_host_lazy)")
  else if k = "SERVER_PORT" then some (PyVal.str "80")
  else if k = "SERVER_PROTOCOL" then some (PyVal.str "HTTP/1.1")
  else if k = "PATH_INFO" then some (PyVal.str "/graphql/")
  else if k = "CONTENT_TYPE" then some (PyVal.str "application/json")
  else if k = "HTTP_ACCEPT" then some (PyVal.str "application/json")
  else if k = "CONTENT_LENGTH" then some (PyVal.str "2")
  else if k = "wsgi.input" then some (PyVal.stream (bytesIOOf [123, 125]))
  else none

/-- Outcome handling of `warmup_application`'s `try`/`except Exception`
block: a normal return of `list(app(...))` is discarded (`none` — nothing
logged); an exception is caught and turned into the logged warning message.
The function is total: nothing propagates. -/
def warmupHandle : Except String AppResult → Option String
  | Except.ok _ => none
  | Except.error e => some ("Warmup request failed: " ++ e)

/-- `warmup_application(app)`: run the wrapped handler once on the fabricated
warmup environ (with a no-op `start_response`), discard its result, and
return the logged warning message if the handler raised (`none` on
success).  Total — the surrounding `try`/`except` swallows handler
exceptions. -/
def warmup_application (app : App) : Option String :=
  warmupHandle (app warmupEnviron)

-- Sanity checks on the embedding (concrete evaluations).
example : pyIntOfString "2" = some 2 := by decide
example : pyIntOfString " -17 " = some (-17) := by decide
example : pyIntOfString "1_000" = some 1000 := by decide
example : pyIntOfString "1__0" = none := by decide
example : pyIntOfString "abc" = none := by decide
example : pyIntOfString "" = none := by decide
example : pyInt (PyVal.stream (bytesIOOf [1])) = none := by decide

/-! Concrete applications and environs used as witnesses and counterexamples. -/

/-- A concrete application that succeeds with one `start_response` call. -/
def appOkSimple : App := fun _ =>
  Except.ok { srCalls := [("200 OK", [("Content-Type", PyVal.str "text/html")])],
              body := [[72, 105]] }

/-- A concrete application that raises an exception. -/
def appBoom : App := fun _ => Except.error "boom"

/-- Environ whose only entry is `CONTENT_LENGTH = "42"`. -/
def envCL42 : Env := fun k =>
  if k = "CONTENT_LENGTH" then some (PyVal.str "42") else none

/-- The empty environ. -/
def envEmpty : Env := fun _ => none

/-- Environ with a readable input stream positioned past its first byte. -/
def envInputStream : Env := fun k =>
  if k = "wsgi.input" then some (PyVal.stream ⟨[1, 2, 3], 1⟩)
  else if k = "HTTP_HOST" then some (PyVal.str "shop.example") else none

/-- Environ whose `wsgi.input` value has no `read` attribute. -/
def envNoReadInput : Env := fun k =>
  if k = "wsgi.input" then some (PyVal.noRead "object without a read attribute")
  else if k = "HTTP_HOST" then some (PyVal.str "shop.example")
  else if k = "CONTENT_LENGTH" then some (PyVal.str "7") else none

/-- An `OPTIONS` request with a non-empty `Origin` header. -/
def envOptOrigin : Env := fun k =>
  if k = "REQUEST_METHOD" then some (PyVal.str "OPTIONS")
  else if k = "HTTP_ORIGIN" then some (PyVal.str "https://example.com") else none

/-- An `OPTIONS` request carrying an `Origin` header with the empty string as
value (`HTTP_ORIGIN = ""`), as a server sets for an empty-valued header. -/
def envOptEmptyOrigin : Env := fun k =>
  if k = "REQUEST_METHOD" then some (PyVal.str "OPTIONS")
  else if k = "HTTP_ORIGIN" then some (PyVal.str "") else none

/-- An `OPTIONS` request to `/graphql/` with an empty-valued `Origin` header. -/
def envOptEmptyOriginGraphql : Env := fun k =>
  if k = "REQUEST_METHOD" then some (PyVal.str "OPTIONS")
  else if k = "HTTP_ORIGIN" then some (PyVal.str "")
  else if k = "PATH_INFO" then some (PyVal.str "/graphql/") else none

/-- An `OPTIONS` request with no `Origin` header at all. -/
def envOptNoOrigin : Env := fun k =>
  if k = "REQUEST_METHOD" then some (PyVal.str "OPTIONS") else none

/-- A `GET` request with a non-empty `Origin` header. -/
def envGetOrigin : Env := fun k =>
  if k = "REQUEST_METHOD" then some (PyVal.str "GET")
  else if k = "HTTP_ORIGIN" then some (PyVal.str "https://example.com") else none

/-- A `GET` request carrying an `Origin` header with the empty string as
value. -/
def envGetEmptyOrigin : Env := fun k =>
  if k = "REQUEST_METHOD" then some (PyVal.str "GET")
  else if k = "HTTP_ORIGIN" then some (PyVal.str "") else none

/-- A `GET` request with no `Origin` header. -/
def envGetNoOrigin : Env := fun k =>
  if k = "REQUEST_METHOD" then some (PyVal.str "GET") else none

/-! Helper lemmas about environ updates and normalization. -/

/-- Looking up the key just stored. -/
theorem Env.set_same (e : Env) (k : String) (v : PyVal) :
    Env.set e k v k = some v := by
  simp [Env.set]

/-- Looking up a different key after a store. -/
theorem Env.set_other (e : Env) (k k' : String) (v : PyVal) (h : k' ≠ k) :
    Env.set e k v k' = e k' := by
  simp [Env.set, h]

/-- After normalization, the `CONTENT_LENGTH` entry is the coerced integer
when the key was present, and remains absent when it was absent. -/
theorem normalizeEnviron_lookup_CL (env : Env) :
    normalizeEnviron env "CONTENT_LENGTH"
      = (env "CONTENT_LENGTH").map (fun v => PyVal.int ((pyInt v).getD 0)) := by
  have hne : ("CONTENT_LENGTH" : String) ≠ "wsgi.input" := by decide
  unfold normalizeEnviron
  cases hin : env "wsgi.input" with
  | none =>
      cases hcl : env "CONTENT_LENGTH" <;> simp [hcl, Env.set]
  | some v =>
      cases v <;>
        (cases hcl : env "CONTENT_LENGTH" <;> simp [hcl, Env.set, hne])

/-- After normalization, the `wsgi.input` entry is the rewound in-memory copy
when the original value was a readable stream, and is whatever it was
otherwise (absent, or a value without `read`). -/
theorem normalizeEnviron_lookup_input (env : Env) :
    normalizeEnviron env "wsgi.input"
      = match env "wsgi.input" with
        | some (PyVal.stream b) => some (PyVal.stream (bytesIOOf (b.readAll).1))
        | other => other := by
  have hne : ("wsgi.input" : String) ≠ "CONTENT_LENGTH" := by decide
  unfold normalizeEnviron
  cases hin : env "wsgi.input" with
  | none =>
      cases hcl : env "CONTENT_LENGTH" <;> simp [hin, hcl, Env.set, hne]
  | some v =>
      cases v <;>
        (cases hcl : env "CONTENT_LENGTH" <;> simp [hin, hcl, Env.set, hne])

/-! Claim theorems. -/

/-- C1 (amended).  For every request environment processed by the
body-normalization wrapper: if the `CONTENT_LENGTH` field holds a valid
integer string, the stored `CONTENT_LENGTH` afterwards equals that integer;
if the field is present but holds a non-numeric value, the stored
`CONTENT_LENGTH` afterwards is zero; if the field is missing, the entry
remains missing (it is not set to zero); the coercion is total, so no error
is ever raised. -/
theorem contentLength_coercion (env : Env) :
    (∀ s n, env "CONTENT_LENGTH" = some (PyVal.str s) → pyIntOfString s = some n →
      normalizeEnviron env "CONTENT_LENGTH" = some (PyVal.int n)) ∧
    (∀ v, env "CONTENT_LENGTH" = some v → pyInt v = none →
      normalizeEnviron env "CONTENT_LENGTH" = some (PyVal.int 0)) ∧
    (env "CONTENT_LENGTH" = none → normalizeEnviron env "CONTENT_LENGTH" = none) := by
  refine ⟨?_, ?_, ?_⟩
  · intro s n hs hp
    rw [normalizeEnviron_lookup_CL, hs]
    simp [pyInt, hp]
  · intro v hv hp
    rw [normalizeEnviron_lookup_CL, hv]
    simp [hp]
  · intro h
    rw [normalizeEnviron_lookup_CL, h]
    rfl

/-- C1 witness: on an environ with `CONTENT_LENGTH = "42"`, the wrapper
stores the integer 42. -/
theorem contentLength_coercion_witness :
    normalizeEnviron envCL42 "CONTENT_LENGTH" = some (PyVal.int 42) :=
  (contentLength_coercion envCL42).1 "42" 42 (by decide) (by decide)

/-- C1 counterexample to the claim as stated: on an environ with no
`CONTENT_LENGTH` entry, the entry stays absent after the wrapper runs — the
lookup yields `none`, not the stored integer zero the claim demands. -/
theorem contentLength_missing_stays_missing :
    normalizeEnviron envEmpty "CONTENT_LENGTH" = none ∧
    decide (normalizeEnviron envEmpty "CONTENT_LENGTH" = some (PyVal.int 0)) = false := by
  constructor
  · rw [normalizeEnviron_lookup_CL]; rfl
  · decide

/-- C4.  For every request environment whose `wsgi.input` is a readable
stream, after the body-normalization wrapper runs the stored stream is
positioned at the start, reading it yields exactly the bytes the original
stream would have yielded from its current position, and after a full read a
`seek 0` makes the same bytes readable again (re-readable). -/
theorem input_stream_rewound (env : Env) (b : ByteStream)
    (h : env "wsgi.input" = some (PyVal.stream b)) :
    normalizeEnviron env "wsgi.input" = some (PyVal.stream (bytesIOOf (b.readAll).1)) ∧
    (bytesIOOf (b.readAll).1).pos = 0 ∧
    ((bytesIOOf (b.readAll).1).readAll).1 = (b.readAll).1 ∧
    ((((bytesIOOf (b.readAll).1).readAll).2.seek 0).readAll).1 = (b.readAll).1 := by
  refine ⟨?_, rfl, ?_, ?_⟩
  · rw [normalizeEnviron_lookup_input, h]
  · simp [bytesIOOf, ByteStream.readAll]
  · simp [bytesIOOf, ByteStream.readAll, ByteStream.seek]

/-- C4 witness: the stream `[1, 2, 3]` at position 1 is replaced by the
rewound buffer `[2, 3]`, which re-reads to the same bytes. -/
theorem input_stream_rewound_witness :
    normalizeEnviron envInputStream "wsgi.input"
        = some (PyVal.stream (bytesIOOf (((⟨[1, 2, 3], 1⟩ : ByteStream)).readAll).1)) ∧
    (bytesIOOf (((⟨[1, 2, 3], 1⟩ : ByteStream)).readAll).1).pos = 0 ∧
    ((bytesIOOf (((⟨[1, 2, 3], 1⟩ : ByteStream)).readAll).1).readAll).1
        = ((⟨[1, 2, 3], 1⟩ : ByteStream)).readAll.1 ∧
    ((((bytesIOOf (((⟨[1, 2, 3], 1⟩ : ByteStream)).readAll).1).readAll).2.seek 0).readAll).1
        = ((⟨[1, 2, 3], 1⟩ : ByteStream)).readAll.1 :=
  input_stream_rewound envInputStream ⟨[1, 2, 3], 1⟩ (by decide)

/-- C9.  The body-normalization wrapper mutates at most the `wsgi.input` and
`CONTENT_LENGTH` entries: every other key reads back unchanged; and when
`wsgi.input` is absent or its value has no `read` attribute, that entry too
is left untouched.  The transformation is total, so no error is raised. -/
theorem environ_frame (env : Env) :
    (∀ k, k ≠ "wsgi.input" → k ≠ "CONTENT_LENGTH" → normalizeEnviron env k = env k) ∧
    ((env "wsgi.input").all (fun v => ! v.hasRead) = true →
      normalizeEnviron env "wsgi.input" = env "wsgi.input") := by
  constructor
  · intro k h1 h2
    unfold normalizeEnviron
    cases hin : env "wsgi.input" with
    | none =>
        cases hcl : env "CONTENT_LENGTH" <;> simp [hcl, Env.set, h1, h2]
    | some v =>
        cases v <;>
          (cases hcl : env "CONTENT_LENGTH" <;> simp [hin, hcl, Env.set, h1, h2])
  · intro hno
    rw [normalizeEnviron_lookup_input]
    cases hin : env "wsgi.input" with
    | none => rfl
    | some v =>
        cases v <;> simp_all [PyVal.hasRead]

/-- C9 witness: on an environ whose `wsgi.input` has no `read` attribute, the
unrelated `HTTP_HOST` entry and the `wsgi.input` entry both read back
unchanged. -/
theorem environ_frame_witness :
    normalizeEnviron envNoReadInput "HTTP_HOST" = envNoReadInput "HTTP_HOST" ∧
    normalizeEnviron envNoReadInput "wsgi.input" = envNoReadInput "wsgi.input" :=
  ⟨(environ_frame envNoReadInput).1 "HTTP_HOST" (by decide) (by decide),
   (environ_frame envNoReadInput).2 (by decide)⟩

/-- A truthy string is a non-empty string. -/
theorem pyTruthy_str_of_ne (s : String) (h : s ≠ "") : pyTruthy (PyVal.str s) = true := by
  simp [pyTruthy, h]

/-- C2 (amended).  For every `OPTIONS` request whose environment carries a
non-empty `Origin` header, the CORS wrapper responds with exactly one
`start_response('200 OK', ...)` call and the empty body `[b'']`, and the
result does not depend on the wrapped application — a full short-circuit. -/
theorem options_with_origin_short_circuit (app : App) (env : Env) (s : String)
    (hm : env "REQUEST_METHOD" = some (PyVal.str "OPTIONS"))
    (ho : env "HTTP_ORIGIN" = some (PyVal.str s)) (hs : s ≠ "") :
    cors_middleware app env
      = Except.ok { srCalls := [("200 OK", corsHeaders (PyVal.str s))], body := [[]] } ∧
    ∀ app2 : App, cors_middleware app2 env = cors_middleware app env := by
  have ht := pyTruthy_str_of_ne s hs
  constructor
  · unfold cors_middleware
    rw [ho, hm]
    simp [originTruthy, ht]
  · intro app2
    unfold cors_middleware
    rw [ho, hm]
    simp [originTruthy, ht]

/-- C2 witness: an `OPTIONS` request with `Origin: https://example.com` gets
the canned 200 response with the six CORS headers. -/
theorem options_with_origin_short_circuit_witness :
    cors_middleware appOkSimple envOptOrigin
      = Except.ok { srCalls := [("200 OK", corsHeaders (PyVal.str "https://example.com"))],
                    body := [[]] } :=
  (options_with_origin_short_circuit appOkSimple envOptOrigin "https://example.com"
    (by decide) (by decide) (by decide)).1

/-- C2 counterexample to the claim as stated: an `OPTIONS` request whose
environment does contain an `Origin` header, but with the empty string as
value, is answered without any `start_response` call — no `'200 OK'` status
is ever handed to the server, contradicting the claim for that input. -/
theorem options_empty_origin_no_status :
    cors_middleware appOkSimple envOptEmptyOrigin
      = Except.ok { srCalls := [], body := [[]] } ∧
    envOptEmptyOrigin "HTTP_ORIGIN" = some (PyVal.str "") := by
  constructor
  · rfl
  · rfl

/-- C3 (amended).  For every non-`OPTIONS` request whose environment carries
a non-empty `Origin` header, every header list the application hands to
`start_response` is forwarded extended with exactly the six CORS pairs in
source order, the origin echoed exactly, and the body is unchanged. -/
theorem non_options_origin_headers_extended (app : App) (env : Env) (s : String)
    (r : AppResult)
    (hm : env "REQUEST_METHOD" ≠ some (PyVal.str "OPTIONS"))
    (ho : env "HTTP_ORIGIN" = some (PyVal.str s)) (hs : s ≠ "")
    (happ : app env = Except.ok r) :
    cors_middleware app env
      = Except.ok (AppResult.mk
          (r.srCalls.map (fun c => (c.1,
            c.2 ++ [("Access-Control-Allow-Origin", PyVal.str s),
                    ("Access-Control-Allow-Credentials", PyVal.str "true"),
                    ("Access-Control-Allow-Methods", PyVal.str "POST, GET, OPTIONS"),
                    ("Access-Control-Allow-Headers",
                     PyVal.str "Content-Type, Authorization, authorization-bearer"),
                    ("Access-Control-Max-Age", PyVal.str "3600"),
                    ("Access-Control-Expose-Headers", PyVal.str "Content-Type, Authorization")])))
          r.body) := by
  have ht := pyTruthy_str_of_ne s hs
  unfold cors_middleware
  rw [ho, if_neg hm, happ]
  simp [ht, corsHeaders]

/-- C3 witness: a `GET` with `Origin: https://example.com` has its one
response-header list extended with the six CORS pairs. -/
theorem non_options_origin_headers_extended_witness :
    cors_middleware appOkSimple envGetOrigin
      = Except.ok (AppResult.mk
          [("200 OK",
            [("Content-Type", PyVal.str "text/html"),
             ("Access-Control-Allow-Origin", PyVal.str "https://example.com"),
             ("Access-Control-Allow-Credentials", PyVal.str "true"),
             ("Access-Control-Allow-Methods", PyVal.str "POST, GET, OPTIONS"),
             ("Access-Control-Allow-Headers",
              PyVal.str "Content-Type, Authorization, authorization-bearer"),
             ("Access-Control-Max-Age", PyVal.str "3600"),
             ("Access-Control-Expose-Headers", PyVal.str "Content-Type, Authorization")])]
          [[72, 105]]) :=
  non_options_origin_headers_extended appOkSimple envGetOrigin "https://example.com"
    { srCalls := [("200 OK", [("Content-Type", PyVal.str "text/html")])], body := [[72, 105]] }
    (by decide) (by decide) (by decide) (by decide)

/-- C3 counterexample to the claim as stated: a `GET` request whose
environment contains an `Origin` header with the empty string as value has
its header list forwarded unchanged — the six CORS pairs are not appended,
contradicting the claim for that input. -/
theorem get_empty_origin_headers_unchanged :
    cors_middleware appOkSimple envGetEmptyOrigin
      = Except.ok { srCalls := [("200 OK", [("Content-Type", PyVal.str "text/html")])],
                    body := [[72, 105]] } ∧
    envGetEmptyOrigin "HTTP_ORIGIN" = some (PyVal.str "") := by
  constructor
  · rfl
  · rfl

/-- C6.  For every `OPTIONS` request whose environment has no `Origin`
header, the CORS wrapper makes no `start_response` call at all (no status
line or headers reach the server), returns the body iterable `[b'']` (which
yields no bytes), and the result does not depend on the wrapped application
— it is never invoked. -/
theorem options_no_origin_silent (app : App) (env : Env)
    (hm : env "REQUEST_METHOD" = some (PyVal.str "OPTIONS"))
    (ho : env "HTTP_ORIGIN" = none) :
    cors_middleware app env = Except.ok (AppResult.mk [] [[]]) ∧
    ∀ app2 : App, cors_middleware app2 env = cors_middleware app env := by
  constructor
  · unfold cors_middleware
    rw [ho, hm]
    simp [originTruthy]
  · intro app2
    unfold cors_middleware
    rw [ho, hm]
    simp [originTruthy]

/-- C6 witness: an originless `OPTIONS` request gets the silent empty
response. -/
theorem options_no_origin_silent_witness :
    cors_middleware appOkSimple envOptNoOrigin = Except.ok (AppResult.mk [] [[]]) :=
  (options_no_origin_silent appOkSimple envOptNoOrigin (by decide) (by decide)).1

/-- C7.  For every non-`OPTIONS` request whose environment has no `Origin`
header, the CORS wrapper is a pass-through: the application's
`start_response` calls (status and header lists) and body — or its raised
exception — are forwarded completely unmodified. -/
theorem non_options_no_origin_pass_through (app : App) (env : Env)
    (hm : env "REQUEST_METHOD" ≠ some (PyVal.str "OPTIONS"))
    (ho : env "HTTP_ORIGIN" = none) :
    cors_middleware app env = app env := by
  unfold cors_middleware
  rw [ho, if_neg hm]
  cases happ : app env with
  | ok r => simp
  | error e => rfl

/-- C7 witness: a `GET` without `Origin` passes through unmodified. -/
theorem non_options_no_origin_pass_through_witness :
    cors_middleware appOkSimple envGetNoOrigin = appOkSimple envGetNoOrigin :=
  non_options_no_origin_pass_through appOkSimple envGetNoOrigin (by decide) (by decide)

/-- C10 (amended).  For every `OPTIONS` request whose environment carries a
non-empty `Origin` header, `start_response` is invoked exactly once, with
status `'200 OK'` and a header list consisting of exactly the six CORS pairs
in source order and nothing else (the list starts empty and only the CORS
pairs are appended). -/
theorem options_origin_exact_headers (app : App) (env : Env) (s : String)
    (hm : env "REQUEST_METHOD" = some (PyVal.str "OPTIONS"))
    (ho : env "HTTP_ORIGIN" = some (PyVal.str s)) (hs : s ≠ "") :
    cors_middleware app env
      = Except.ok (AppResult.mk
          [("200 OK",
            [("Access-Control-Allow-Origin", PyVal.str s),
             ("Access-Control-Allow-Credentials", PyVal.str "true"),
             ("Access-Control-Allow-Methods", PyVal.str "POST, GET, OPTIONS"),
             ("Access-Control-Allow-Headers",
              PyVal.str "Content-Type, Authorization, authorization-bearer"),
             ("Access-Control-Max-Age", PyVal.str "3600"),
             ("Access-Control-Expose-Headers", PyVal.str "Content-Type, Authorization")])]
          [[]]) := by
  have ht := pyTruthy_str_of_ne s hs
  unfold cors_middleware
  rw [ho, hm]
  simp [originTruthy, ht, corsHeaders]

/-- C10 witness: an `OPTIONS` with a non-empty origin produces the single
`start_response('200 OK', six CORS pairs)` call even when the wrapped
application would raise. -/
theorem options_origin_exact_headers_witness :
    cors_middleware appBoom envOptOrigin
      = Except.ok (AppResult.mk
          [("200 OK",
            [("Access-Control-Allow-Origin", PyVal.str "https://example.com"),
             ("Access-Control-Allow-Credentials", PyVal.str "true"),
             ("Access-Control-Allow-Methods", PyVal.str "POST, GET, OPTIONS"),
             ("Access-Control-Allow-Headers",
              PyVal.str "Content-Type, Authorization, authorization-bearer"),
             ("Access-Control-Max-Age", PyVal.str "3600"),
             ("Access-Control-Expose-Headers", PyVal.str "Content-Type, Authorization")])]
          [[]]) :=
  options_origin_exact_headers appBoom envOptOrigin "https://example.com"
    (by decide) (by decide) (by decide)

/-- C10 counterexample to the claim as stated: an `OPTIONS` request to
`/graphql/` whose environment contains an `Origin` header with the empty
string as value triggers zero `start_response` invocations, not the exactly
one with status `'200 OK'` that the claim demands. -/
theorem options_empty_origin_zero_invocations :
    cors_middleware appBoom envOptEmptyOriginGraphql = Except.ok (AppResult.mk [] [[]]) ∧
    envOptEmptyOriginGraphql "HTTP_ORIGIN" = some (PyVal.str "") := by
  constructor
  · rfl
  · rfl

/-- C5.  For every outcome of the wrapped handler on the warmup request, the
warmup routine returns normally — `warmup_application` is a total function
whose `Option String` value is the logged warning: `none` (nothing logged)
when the handler returns, and the warning message built from the exception
when the handler raises, in which case the exception is swallowed rather
than propagated. -/
theorem warmup_swallows_handler_failure (app : App) :
    (∀ r, app warmupEnviron = Except.ok r → warmup_application app = none) ∧
    (∀ e, app warmupEnviron = Except.error e →
      warmup_application app = some ("Warmup request failed: " ++ e)) := by
  constructor
  · intro r hr
    simp [warmup_application, warmupHandle, hr]
  · intro e he
    simp [warmup_application, warmupHandle, he]

/-- C5 witness: a handler that raises `"boom"` leads to the logged warning
and a normal return. -/
theorem warmup_swallows_handler_failure_witness :
    warmup_application appBoom = some "Warmup request failed: boom" :=
  (warmup_swallows_handler_failure appBoom).2 "boom" rfl

/-- C8.  The warmup routine's result factors through exactly one evaluation
of the wrapped handler, at the fabricated environ: method `POST`, path
`/graphql/`, content type `application/json`, body the two bytes `{}` (123,
125), content length `"2"`.  The handler's returned value is discarded
(`warmupHandle` is constant on successes), while its success or failure is
still observed in the log. -/
theorem warmup_single_fabricated_request (app : App) :
    warmup_application app = warmupHandle (app warmupEnviron) ∧
    (∀ r1 r2 : AppResult, warmupHandle (Except.ok r1) = warmupHandle (Except.ok r2)) ∧
    (∀ e, warmupHandle (Except.error e) = some ("Warmup request failed: " ++ e)) ∧
    warmupEnviron "REQUEST_METHOD" = some (PyVal.str "POST") ∧
    warmupEnviron "PATH_INFO" = some (PyVal.str "/graphql/") ∧
    warmupEnviron "CONTENT_TYPE" = some (PyVal.str "application/json") ∧
    warmupEnviron "wsgi.input" = some (PyVal.stream (bytesIOOf [123, 125])) ∧
    warmupEnviron "CONTENT_LENGTH" = some (PyVal.str "2") :=
  ⟨rfl, fun _ _ => rfl, fun _ => rfl,
   by decide, by decide, by decide, by decide, by decide⟩

/-- C8 witness: the factorization evaluated on a concrete handler. -/
theorem warmup_single_fabricated_request_witness :
    warmup_application appOkSimple = warmupHandle (appOkSimple warmupEnviron) :=
  (warmup_single_fabricated_request appOkSimple).1
